import Mathlib

/-!
Verification of the storage-manager MCP scripts.

This file gives a shallow embedding of the Python sources:

* `src/utils.py` — class `S3Manager` with methods `upload_file` and
  `get_file_info` (the `download_file` method invoked from `src/main.py`
  is absent from `utils.py`; it is modelled from the spec, see below);
* `src/main.py` — thin tool wrappers that delegate to `S3Manager`;
* `src/Video 2/main.py` — `company_info` resource and `create_jd` prompt.

Modelling conventions:
* byte strings are `List Nat`;
* the local filesystem is a function `String → Option Bytes`
  (`none` = path does not exist);
* the remote bucket is a function `String → Option S3Object`;
* Python exceptions are the inductive `PyError`; a procedure that can
  raise returns `Except PyError _`;
* external black boxes (the MIME table of `mimetypes.guess_type`, the
  fresh UUID of `uuid.uuid4()`, the outcome of the network calls,
  Python's `str.format`) enter as explicit parameters;
* `upload_file` additionally returns the list of remote calls it issued
  and the resulting bucket state, so that "performs no remote call" is
  expressible.
-/

/-- Byte strings: the content of local files and of stored objects. -/
abbrev Bytes := List Nat

/-- An object stored in the bucket: body plus the content type it was
tagged with at `put_object` time. -/
structure S3Object where
  body : Bytes
  contentType : String
  deriving Repr, DecidableEq

/-- Python exceptions that the embedded code can raise or propagate. -/
inductive PyError where
  /-- Python `FileNotFoundError` with its message. -/
  | fileNotFoundError (msg : String)
  /-- `botocore.exceptions.ClientError` carrying the service error code
  (for example a not-found code or an access-denied code). -/
  | clientError (code : String)
  /-- A remote-service or transport failure that is not a `ClientError`
  (for example a network-level exception). -/
  | remoteFailure (msg : String)
  /-- A local I/O failure (destination path not writable). -/
  | ioFailure (msg : String)
  /-- Any other Python exception with its message. -/
  | otherError (msg : String)
  deriving Repr, DecidableEq

/-- The message carried by an exception (Python `str(e)`). -/
def PyError.msg : PyError → String
  | .fileNotFoundError m => m
  | .clientError c => c
  | .remoteFailure m => m
  | .ioFailure m => m
  | .otherError m => m

/-- Split a character list on the path separator `/`. -/
def splitOnSlash : List Char → List (List Char)
  | [] => [[]]
  | c :: rest =>
    let r := splitOnSlash rest
    if c = '/' then [] :: r
    else
      match r with
      | [] => [[c]]
      | h :: t => (c :: h) :: t

/-- The last component of a POSIX path, as `pathlib.PurePath.name`:
split on `/`, drop empty and `.` components, take the last one. -/
def pathNameL (p : List Char) : List Char :=
  ((splitOnSlash p).filter fun s => !(s == []) && !(s == ['.'])).getLastD []

/-- String version of `pathNameL`. -/
def pathName (p : String) : String :=
  String.mk (pathNameL p.toList)

/-- Index of the last occurrence of `.` in a character list, if any
(Python `str.rfind`). -/
def rfindDot : List Char → Option Nat
  | [] => none
  | c :: rest =>
    match rfindDot rest with
    | some i => some (i + 1)
    | none => if c = '.' then some 0 else none

/-- The file extension as `pathlib.PurePath.suffix`: with `name` the
final path component and `i` the index of its last dot, the slice
`name[i:]` when `0 < i < len(name) - 1`, else the empty string. -/
def pathSuffix (p : String) : String :=
  let name := pathNameL p.toList
  match rfindDot name with
  | some i => if 0 < i ∧ i + 1 < name.length then String.mk (name.drop i) else ""
  | none => ""

/-- `os.path.join(a, b)` for a single join step: `b` if `b` is absolute,
otherwise `a ++ b` when `a` is empty or ends with the separator,
otherwise `a ++ "/" ++ b`. -/
def osPathJoin (a b : String) : String :=
  if b.toList.take 1 == ['/'] then b
  else if a.toList == [] || a.toList.getLastD ' ' == '/' then a ++ b
  else a ++ "/" ++ b

/-- The value returned by `S3Manager.upload_file` (the Python dict with
keys `file_key`, `status`, `message`, `s3_location`). -/
structure UploadResult where
  file_key : String
  status : String
  message : String
  s3_location : String
  deriving Repr, DecidableEq

/-- A remote request issued to the storage service. -/
inductive RemoteCall where
  /-- `s3_client.put_object(Bucket=…, Key=…, Body=…, ContentType=…)`. -/
  | putObject (bucket : String) (key : String) (body : Bytes) (contentType : String)
  deriving Repr, DecidableEq

/-- Embedding of `S3Manager.upload_file` from `src/utils.py`.

Parameters standing for the external world: `bucket` is
`self.bucket_name`; `guessType` is the MIME table behind
`mimetypes.guess_type`; `uuid` is the string rendering of the fresh
`uuid.uuid4()`; `putErr` is the outcome of the `put_object` network call
(`none` = success, `some e` = the call raised `e`); `fs` is the local
filesystem; `s3` is the bucket content before the call.

Returns the outcome (the result dict, or the exception raised), the
list of remote calls issued, and the bucket content after the call. -/
def S3Manager.upload_file (bucket : String) (guessType : String → Option String)
    (uuid : String) (putErr : Option PyError)
    (fs : String → Option Bytes) (s3 : String → Option S3Object)
    (file_path : String) :
    Except PyError UploadResult × List RemoteCall × (String → Option S3Object) :=
  match fs file_path with
  | none => (.error (.fileNotFoundError ("File not found: " ++ file_path)), [], s3)
  | some file_content =>
    let content_type := (guessType file_path).getD "application/octet-stream"
    let file_extension := pathSuffix file_path
    let key := "user_uploads/" ++ uuid ++ file_extension
    match putErr with
    | some e => (.error e, [RemoteCall.putObject bucket key file_content content_type], s3)
    | none =>
      (.ok { file_key := key
             status := "success"
             message := "File uploaded successfully from " ++ file_path
             s3_location := "s3://" ++ bucket ++ "/" ++ key },
       [RemoteCall.putObject bucket key file_content content_type],
       fun k => if k = key then some ⟨file_content, content_type⟩ else s3 k)

/-- A Python `datetime` value, abstracted to its `isoformat()` rendering. -/
structure PyDatetime where
  iso : String
  deriving Repr, DecidableEq

/-- The fields of a successful `head_object` response that
`get_file_info` reads (each may be absent: `response.get`). -/
structure HeadResponse where
  contentLength : Option Nat
  contentType : Option String
  lastModified : Option PyDatetime
  deriving Repr, DecidableEq

/-- Outcome of the `head_object` remote call. -/
inductive HeadOutcome where
  /-- The call returned a response. -/
  | ok (response : HeadResponse)
  /-- The call raised `botocore.exceptions.ClientError` with the given
  service error code (not-found, access denied, …). -/
  | clientError (code : String)
  /-- The call raised some other exception (for example a network-level
  failure, which is not a `ClientError`). -/
  | otherError (msg : String)
  deriving Repr, DecidableEq

/-- The value returned by `S3Manager.get_file_info` (the Python dict:
`file_key` and `exists` always present, the remaining keys only in the
branch that sets them). The Python dict key `exists` is modelled by the
field `exists_b`. -/
structure FileInfo where
  file_key : String
  exists_b : Bool
  size_bytes : Option Nat := none
  content_type : Option String := none
  last_modified : Option String := none
  error : Option String := none
  deriving Repr, DecidableEq

/-- Embedding of `S3Manager.get_file_info` from `src/utils.py`: issue
`head_object`; on a response, return the metadata dict with
`exists=True`; on `ClientError`, return the `exists=False` dict with
error message `"File not found"`; any other exception propagates. -/
def S3Manager.get_file_info (file_key : String) (head : HeadOutcome) :
    Except PyError FileInfo :=
  match head with
  | .ok response =>
    .ok { file_key := file_key
          exists_b := true
          size_bytes := response.contentLength
          content_type := response.contentType
          last_modified := response.lastModified.map PyDatetime.iso }
  | .clientError _ =>
    .ok { file_key := file_key, exists_b := false, error := some "File not found" }
  | .otherError m => .error (.otherError m)

/-- The confirmation value returned by a successful download:
destination path and byte count. -/
structure DownloadResult where
  destination_path : String
  size_bytes : Nat
  deriving Repr, DecidableEq

/-- Modelled from the spec: the method `S3Manager.download_file` is
invoked by the `download_file` tool in `src/main.py` but its definition
is absent from `src/utils.py`. Per the spec it retrieves the full object
body for `file_key` and writes it to `destination_path` on the local
filesystem, overwriting any existing file there; it fails with
`RemoteFailure` if the key does not exist, and with a local I/O error if
the destination is not writable; on success it returns a confirmation
(destination path and byte count). `writable` models which local paths
accept a write; the returned filesystem is the state after the write. -/
def S3Manager.download_file (s3 : String → Option S3Object)
    (writable : String → Bool) (fs : String → Option Bytes)
    (file_key destination_path : String) :
    Except PyError (DownloadResult × (String → Option Bytes)) :=
  match s3 file_key with
  | none => .error (.remoteFailure ("Could not download " ++ file_key))
  | some obj =>
    if writable destination_path then
      .ok ({ destination_path := destination_path, size_bytes := obj.body.length },
           fun p => if p = destination_path then some obj.body else fs p)
    else .error (.ioFailure ("Cannot write to " ++ destination_path))

/-- Outcome of `open(path).read()` on a local text file. -/
inductive ReadOutcome where
  /-- The file was read; `content` is its text. -/
  | ok (content : String)
  /-- The open raised `FileNotFoundError`. -/
  | fileNotFound
  /-- The open or read raised some other exception with this message. -/
  | otherError (msg : String)
  deriving Repr, DecidableEq

/-- The try-block of `company_info` in `src/Video 2/main.py`: read
`resource.txt` next to the script and return its content; a failed read
raises. `readFile` is the local-filesystem read, `script_dir` is the
directory of the script. -/
def companyInfoTry (script_dir : String) (readFile : String → ReadOutcome) :
    Except PyError String :=
  let file_path := osPathJoin script_dir "resource.txt"
  match readFile file_path with
  | .ok content => .ok content
  | .fileNotFound => .error (.fileNotFoundError file_path)
  | .otherError m => .error (.otherError m)

/-- Embedding of the `company_info` resource from `src/Video 2/main.py`:
run the try-block; convert `FileNotFoundError` to the
`"Error: resource.txt not found at …"` string and any other exception to
the `"An error occurred: …"` string. -/
def company_info (script_dir : String) (readFile : String → ReadOutcome) : String :=
  let file_path := osPathJoin script_dir "resource.txt"
  match companyInfoTry script_dir readFile with
  | .ok content => content
  | .error (.fileNotFoundError _) => "Error: resource.txt not found at " ++ file_path
  | .error e => "An error occurred: " ++ e.msg

/-- The try-block of `create_jd` in `src/Video 2/main.py`: read
`prompt.txt` next to the script and substitute `job_title` into the
template; a failed read or a failed substitution raises. `pyFormat`
stands for Python's `template.format(job_title=job_title)`: `ok` is the
substituted string, `error m` is a raised formatting exception. -/
def createJdTry (script_dir : String) (readFile : String → ReadOutcome)
    (pyFormat : String → String → Except String String) (job_title : String) :
    Except PyError String :=
  let file_path := osPathJoin script_dir "prompt.txt"
  match readFile file_path with
  | .fileNotFound => .error (.fileNotFoundError file_path)
  | .otherError m => .error (.otherError m)
  | .ok template =>
    match pyFormat template job_title with
    | .ok s => .ok s
    | .error m => .error (.otherError m)

/-- Embedding of the `create_jd` prompt from `src/Video 2/main.py`: run
the try-block; convert `FileNotFoundError` to the
`"Error: prompt.txt not found at …"` string and any other exception to
the `"An error occurred: …"` string. -/
def create_jd (script_dir : String) (readFile : String → ReadOutcome)
    (pyFormat : String → String → Except String String) (job_title : String) : String :=
  let file_path := osPathJoin script_dir "prompt.txt"
  match createJdTry script_dir readFile pyFormat job_title with
  | .ok s => s
  | .error (.fileNotFoundError _) => "Error: prompt.txt not found at " ++ file_path
  | .error e => "An error occurred: " ++ e.msg

/-- C6: for every key and every client-side error code (in particular the
object-not-found code) signalled by the storage client, `get_file_info`
returns — and does not raise — the result with the key, `exists=false`
and the error message `"File not found"`. -/
theorem getFileInfo_clientError_returns_not_found (file_key code : String) :
    S3Manager.get_file_info file_key (.clientError code) =
      .ok { file_key := file_key, exists_b := false, error := some "File not found" } :=
  rfl

/-- C2 counterexample: a permissions error (`ClientError` with code
`"AccessDenied"`, not an object-not-found) does NOT propagate as a raised
failure: `get_file_info` converts it to the ordinary `exists=false`
return value, contradicting the claim as stated. -/
theorem getFileInfo_access_denied_swallowed :
    S3Manager.get_file_info "user_uploads/report.txt" (.clientError "AccessDenied") =
      .ok { file_key := "user_uploads/report.txt", exists_b := false,
            error := some "File not found" } :=
  rfl

/-- C2 amended: only remote errors that are not `botocore` `ClientError`
instances (for example network-level exceptions) propagate to the caller
as raised failures; every `ClientError` — including permissions errors —
is caught and converted to the `exists=false` / `"File not found"`
return value. -/
theorem getFileInfo_error_propagation (file_key : String) :
    (∀ msg, S3Manager.get_file_info file_key (.otherError msg) =
      .error (.otherError msg)) ∧
    (∀ code, S3Manager.get_file_info file_key (.clientError code) =
      .ok { file_key := file_key, exists_b := false, error := some "File not found" }) :=
  ⟨fun _ => rfl, fun _ => rfl⟩

/-- C9: whenever `get_file_info` returns (rather than raises), the
returned result carries a `file_key` field equal to the input key, in the
`exists=true` branch and in the `exists=false` branch alike. -/
theorem getFileInfo_preserves_key (file_key : String) (head : HeadOutcome)
    (fi : FileInfo) (h : S3Manager.get_file_info file_key head = .ok fi) :
    fi.file_key = file_key := by
  cases head <;> simp [S3Manager.get_file_info] at h <;> simp [← h]

/-- Witness for C9 at a concrete input. -/
theorem getFileInfo_preserves_key_witness :
    ({ file_key := "abc", exists_b := false,
       error := some "File not found" } : FileInfo).file_key = "abc" :=
  getFileInfo_preserves_key "abc" (.clientError "404") _ rfl

/-- C4: on a path that does not name an existing local file,
`upload_file` raises `FileNotFoundError` immediately, issues no remote
call, and leaves the bucket unchanged — regardless of how the
`put_object` transport would have behaved. -/
theorem uploadFile_missing_local_raises (bucket : String)
    (guessType : String → Option String) (uuid : String) (putErr : Option PyError)
    (fs : String → Option Bytes) (s3 : String → Option S3Object) (file_path : String)
    (h : fs file_path = none) :
    S3Manager.upload_file bucket guessType uuid putErr fs s3 file_path =
      (.error (.fileNotFoundError ("File not found: " ++ file_path)), [], s3) := by
  simp [S3Manager.upload_file, h]

/-- Witness for C4 at a concrete input. -/
theorem uploadFile_missing_local_raises_witness :
    S3Manager.upload_file "bkt" (fun _ => none) "u1" none (fun _ => none)
        (fun _ => none) "/tmp/missing.txt" =
      (.error (.fileNotFoundError ("File not found: " ++ "/tmp/missing.txt")), [],
       fun _ => none) :=
  uploadFile_missing_local_raises "bkt" (fun _ => none) "u1" none (fun _ => none)
    (fun _ => none) "/tmp/missing.txt" rfl

/-- C5: for an existing local file, the minted key is exactly the fixed
namespace prefix `"user_uploads/"`, then the freshly generated random
identifier, then the source file's extension; hence it begins with the
prefix and ends in the extension. -/
theorem uploadFile_key_shape (bucket : String) (guessType : String → Option String)
    (uuid : String) (putErr : Option PyError) (fs : String → Option Bytes)
    (s3 : String → Option S3Object) (file_path : String) (content : Bytes)
    (hfs : fs file_path = some content) (res : UploadResult)
    (hok : (S3Manager.upload_file bucket guessType uuid putErr fs s3 file_path).1 =
      .ok res) :
    res.file_key = "user_uploads/" ++ uuid ++ pathSuffix file_path ∧
    (∃ rest, res.file_key = "user_uploads/" ++ rest) ∧
    (∃ stem, res.file_key = stem ++ pathSuffix file_path) := by
  cases putErr <;> simp [S3Manager.upload_file, hfs] at hok
  subst hok
  refine ⟨rfl, ⟨uuid ++ pathSuffix file_path, ?_⟩, ⟨"user_uploads/" ++ uuid, rfl⟩⟩
  simp [String.append_assoc]

/-- Witness for C5 at a concrete input. -/
theorem uploadFile_key_shape_witness :
    ({ file_key := "user_uploads/" ++ "u1" ++ ".txt", status := "success",
       message := "File uploaded successfully from " ++ "/tmp/notes.txt",
       s3_location := "s3://" ++ "bkt" ++ "/" ++ ("user_uploads/" ++ "u1" ++ ".txt") } :
        UploadResult).file_key = "user_uploads/" ++ "u1" ++ pathSuffix "/tmp/notes.txt" ∧
    (∃ rest, ("user_uploads/" ++ "u1" ++ ".txt" : String) = "user_uploads/" ++ rest) ∧
    (∃ stem, ("user_uploads/" ++ "u1" ++ ".txt" : String) =
      stem ++ pathSuffix "/tmp/notes.txt") :=
  uploadFile_key_shape "bkt" (fun _ => some "text/plain") "u1" none
    (fun _ => some [104, 105]) (fun _ => none) "/tmp/notes.txt" [104, 105] rfl _ rfl

/-- C7: for an existing local file whose transmission succeeds,
`upload_file` returns a result with `status = "success"`, with
`file_key` the minted key, and with `s3_location` the fully qualified
string `"s3://" ++ bucket ++ "/" ++ file_key`. -/
theorem uploadFile_success_result (bucket : String)
    (guessType : String → Option String) (uuid : String) (fs : String → Option Bytes)
    (s3 : String → Option S3Object) (file_path : String) (content : Bytes)
    (hfs : fs file_path = some content) (res : UploadResult)
    (hok : (S3Manager.upload_file bucket guessType uuid none fs s3 file_path).1 =
      .ok res) :
    res.status = "success" ∧
    res.file_key = "user_uploads/" ++ uuid ++ pathSuffix file_path ∧
    res.s3_location = "s3://" ++ bucket ++ "/" ++ res.file_key := by
  simp [S3Manager.upload_file, hfs] at hok
  subst hok
  exact ⟨rfl, rfl, rfl⟩

/-- Witness for C7 at a concrete input. -/
theorem uploadFile_success_result_witness :
    ({ file_key := "user_uploads/" ++ "u1" ++ ".txt", status := "success",
       message := "File uploaded successfully from " ++ "/tmp/notes.txt",
       s3_location := "s3://" ++ "bkt" ++ "/" ++ ("user_uploads/" ++ "u1" ++ ".txt") } :
        UploadResult).status = "success" ∧
    ({ file_key := "user_uploads/" ++ "u1" ++ ".txt", status := "success",
       message := "File uploaded successfully from " ++ "/tmp/notes.txt",
       s3_location := "s3://" ++ "bkt" ++ "/" ++ ("user_uploads/" ++ "u1" ++ ".txt") } :
        UploadResult).file_key = "user_uploads/" ++ "u1" ++ pathSuffix "/tmp/notes.txt" ∧
    ({ file_key := "user_uploads/" ++ "u1" ++ ".txt", status := "success",
       message := "File uploaded successfully from " ++ "/tmp/notes.txt",
       s3_location := "s3://" ++ "bkt" ++ "/" ++ ("user_uploads/" ++ "u1" ++ ".txt") } :
        UploadResult).s3_location =
      "s3://" ++ "bkt" ++ "/" ++
        ({ file_key := "user_uploads/" ++ "u1" ++ ".txt", status := "success",
           message := "File uploaded successfully from " ++ "/tmp/notes.txt",
           s3_location := "s3://" ++ "bkt" ++ "/" ++ ("user_uploads/" ++ "u1" ++ ".txt") } :
            UploadResult).file_key :=
  uploadFile_success_result "bkt" (fun _ => some "text/plain") "u1"
    (fun _ => some [104, 105]) (fun _ => none) "/tmp/notes.txt" [104, 105] rfl _ rfl

/-- C8: the `put_object` request issued for an existing local file is
tagged with the content type inferred from the file name when one is
inferable, and with the generic `"application/octet-stream"` otherwise. -/
theorem uploadFile_content_type (bucket : String)
    (guessType : String → Option String) (uuid : String) (putErr : Option PyError)
    (fs : String → Option Bytes) (s3 : String → Option S3Object) (file_path : String)
    (content : Bytes) (hfs : fs file_path = some content) :
    (guessType file_path = none →
      (S3Manager.upload_file bucket guessType uuid putErr fs s3 file_path).2.1 =
        [RemoteCall.putObject bucket ("user_uploads/" ++ uuid ++ pathSuffix file_path)
          content "application/octet-stream"]) ∧
    (∀ ct, guessType file_path = some ct →
      (S3Manager.upload_file bucket guessType uuid putErr fs s3 file_path).2.1 =
        [RemoteCall.putObject bucket ("user_uploads/" ++ uuid ++ pathSuffix file_path)
          content ct]) := by
  constructor
  · intro hg
    cases putErr <;> simp [S3Manager.upload_file, hfs, hg]
  · intro ct hg
    cases putErr <;> simp [S3Manager.upload_file, hfs, hg]

/-- Witness for C8 at a concrete input (undeterminable content type). -/
theorem uploadFile_content_type_witness :
    ((fun _ => (none : Option String)) "/tmp/blob" = none →
      (S3Manager.upload_file "bkt" (fun _ => none) "u1" none (fun _ => some [0])
          (fun _ => none) "/tmp/blob").2.1 =
        [RemoteCall.putObject "bkt" ("user_uploads/" ++ "u1" ++ pathSuffix "/tmp/blob")
          [0] "application/octet-stream"]) ∧
    (∀ ct, (fun _ => (none : Option String)) "/tmp/blob" = some ct →
      (S3Manager.upload_file "bkt" (fun _ => none) "u1" none (fun _ => some [0])
          (fun _ => none) "/tmp/blob").2.1 =
        [RemoteCall.putObject "bkt" ("user_uploads/" ++ "u1" ++ pathSuffix "/tmp/blob")
          [0] ct]) :=
  uploadFile_content_type "bkt" (fun _ => none) "u1" none (fun _ => some [0])
    (fun _ => none) "/tmp/blob" [0] rfl

/-- C1: for every key bound in the bucket and writable destination path,
`download_file` retrieves the full object body, writes it to the
destination path — overwriting whatever the filesystem previously held
there — and returns the confirmation (destination path and byte count). -/
theorem downloadFile_writes_and_confirms (s3 : String → Option S3Object)
    (writable : String → Bool) (fs : String → Option Bytes)
    (file_key destination_path : String) (obj : S3Object)
    (hs3 : s3 file_key = some obj) (hw : writable destination_path = true) :
    S3Manager.download_file s3 writable fs file_key destination_path =
      .ok ({ destination_path := destination_path, size_bytes := obj.body.length },
           fun p => if p = destination_path then some obj.body else fs p) ∧
    (fun p => if p = destination_path then some obj.body else fs p) destination_path =
      some obj.body := by
  simp [S3Manager.download_file, hs3, hw]

/-- Witness for C1 at a concrete input (the destination already holds
other bytes, which the download overwrites). -/
theorem downloadFile_writes_and_confirms_witness :
    S3Manager.download_file
        (fun k => if k = "user_uploads/u1.txt" then some ⟨[1, 2, 3], "text/plain"⟩ else none)
        (fun _ => true) (fun _ => some [9]) "user_uploads/u1.txt" "/tmp/out.txt" =
      .ok ({ destination_path := "/tmp/out.txt",
             size_bytes := (⟨[1, 2, 3], "text/plain"⟩ : S3Object).body.length },
           fun p => if p = "/tmp/out.txt"
             then some (⟨[1, 2, 3], "text/plain"⟩ : S3Object).body
             else (fun _ => some [9]) p) ∧
    (fun p => if p = "/tmp/out.txt"
       then some (⟨[1, 2, 3], "text/plain"⟩ : S3Object).body
       else (fun _ => some [9]) p) "/tmp/out.txt" =
      some (⟨[1, 2, 3], "text/plain"⟩ : S3Object).body :=
  downloadFile_writes_and_confirms
    (fun k => if k = "user_uploads/u1.txt" then some ⟨[1, 2, 3], "text/plain"⟩ else none)
    (fun _ => true) (fun _ => some [9]) "user_uploads/u1.txt" "/tmp/out.txt"
    ⟨[1, 2, 3], "text/plain"⟩ (by decide) rfl

/-- C3: uploading an existing local file and then downloading under the
key returned by the upload writes a local file whose bytes are exactly
the content originally read from the uploaded file (round-trip law). -/
theorem upload_download_roundtrip (bucket : String)
    (guessType : String → Option String) (uuid : String) (fs : String → Option Bytes)
    (s3 : String → Option S3Object) (file_path : String) (content : Bytes)
    (writable : String → Bool) (dest : String)
    (hfs : fs file_path = some content) (hw : writable dest = true)
    (res : UploadResult)
    (hok : (S3Manager.upload_file bucket guessType uuid none fs s3 file_path).1 =
      .ok res) :
    ∃ dr fs2,
      S3Manager.download_file
        (S3Manager.upload_file bucket guessType uuid none fs s3 file_path).2.2
        writable fs res.file_key dest = .ok (dr, fs2) ∧
      fs2 dest = some content := by
  simp only [S3Manager.upload_file, hfs] at hok ⊢
  simp only [Except.ok.injEq] at hok
  subst hok
  refine ⟨⟨dest, content.length⟩, fun p => if p = dest then some content else fs p, ?_, ?_⟩
  · simp [S3Manager.download_file, hw]
  · simp

/-- Witness for C3 at a concrete input. -/
theorem upload_download_roundtrip_witness :
    ∃ dr fs2,
      S3Manager.download_file
        (S3Manager.upload_file "bkt" (fun _ => some "text/plain") "u1" none
          (fun _ => some [104, 105]) (fun _ => none) "/tmp/notes.txt").2.2
        (fun _ => true)
        (fun _ => some [104, 105])
        ({ file_key := "user_uploads/" ++ "u1" ++ ".txt", status := "success",
           message := "File uploaded successfully from " ++ "/tmp/notes.txt",
           s3_location := "s3://" ++ "bkt" ++ "/" ++ ("user_uploads/" ++ "u1" ++ ".txt") } :
            UploadResult).file_key
        "/tmp/out.txt" = .ok (dr, fs2) ∧
      fs2 "/tmp/out.txt" = some [104, 105] :=
  upload_download_roundtrip "bkt" (fun _ => some "text/plain") "u1"
    (fun _ => some [104, 105]) (fun _ => none) "/tmp/notes.txt" [104, 105]
    (fun _ => true) "/tmp/out.txt" rfl rfl _ rfl

/-- C10: neither the `company_info` resource nor the `create_jd` prompt
ever raises: for every script directory, read outcome, formatting
outcome and job title, each returns a string — the file content (or
substituted template) on success, and an error-message string for every
exception (missing file or any other failure, including a failing
template substitution). -/
theorem video2_handlers_never_raise (script_dir job_title : String)
    (readFile : String → ReadOutcome)
    (pyFormat : String → String → Except String String) :
    (match readFile (osPathJoin script_dir "resource.txt") with
     | .ok c => company_info script_dir readFile = c
     | .fileNotFound => company_info script_dir readFile =
         "Error: resource.txt not found at " ++ osPathJoin script_dir "resource.txt"
     | .otherError m => company_info script_dir readFile =
         "An error occurred: " ++ m) ∧
    (match readFile (osPathJoin script_dir "prompt.txt") with
     | .fileNotFound => create_jd script_dir readFile pyFormat job_title =
         "Error: prompt.txt not found at " ++ osPathJoin script_dir "prompt.txt"
     | .otherError m => create_jd script_dir readFile pyFormat job_title =
         "An error occurred: " ++ m
     | .ok template =>
       match pyFormat template job_title with
       | .ok s => create_jd script_dir readFile pyFormat job_title = s
       | .error m => create_jd script_dir readFile pyFormat job_title =
           "An error occurred: " ++ m) := by
  constructor
  · cases hr : readFile (osPathJoin script_dir "resource.txt") <;>
      simp [company_info, companyInfoTry, hr, PyError.msg]
  · cases hr : readFile (osPathJoin script_dir "prompt.txt") with
    | ok template =>
      cases hf : pyFormat template job_title <;>
        simp [create_jd, createJdTry, hr, hf, PyError.msg]
    | fileNotFound => simp [create_jd, createJdTry, hr]
    | otherError m => simp [create_jd, createJdTry, hr, PyError.msg]

example : pathSuffix "/tmp/archive.tar.gz" = ".gz" := by decide
example : pathSuffix "/tmp/.bashrc" = "" := by decide
example : pathSuffix "/tmp/notes.txt" = ".txt" := by decide
example : pathSuffix "noext" = "" := by decide
example : pathSuffix "/tmp/trailingdot." = "" := by decide
example : osPathJoin "/app/x" "resource.txt" = "/app/x/resource.txt" := by decide
